import Mathlib

/-!
Shallow embedding of the Azure DevOps API client core
(`src/services/azureDevOpsClient.ts` and `src/services/apiError.ts`) and
proofs about its error classification, retry loop, response cache and
resource operations.

Modelling conventions:
* JavaScript values flowing through `response.json()` are modelled by the
  inductive `JValue`; JavaScript truthiness by `truthy`.
* Thrown JavaScript failures are `JsFailure`: either an `ApiError`
  (the class from `apiError.ts`) or a plain JS `Error` identified by its
  message (network-layer exceptions, `ensureInitialized` failures,
  JSON-parse failures).
* `Date.now()` and the network are externalized: every operation takes the
  current time `now : Nat` (milliseconds) and an attempt-indexed outcome
  function `f : Nat → FetchOutcome` describing what `fetch` does on the
  i-th network attempt of that call.  Operations return the produced
  value or failure, the updated client state, and how many network
  attempts (`fetch` invocations) were made.
-/

namespace ADO

/-- JSON-ish JavaScript value, as produced by `response.json()`. -/
inductive JValue where
  | null : JValue
  | bool (b : Bool) : JValue
  | num (n : Int) : JValue
  | str (s : String) : JValue
  | arr (elems : List JValue) : JValue
  | obj (fields : List (String × JValue)) : JValue
deriving Repr

/-- JavaScript truthiness of a `JValue` (`if (x)`).  `null`, `false`, `0`
and `""` are falsy; arrays and objects are always truthy. -/
def truthy : JValue → Bool
  | .null => false
  | .bool b => b
  | .num n => n != 0
  | .str s => !s.isEmpty
  | .arr _ => true
  | .obj _ => true

/-- Property lookup `v.field` on an object value; `none` models
`undefined`. -/
def jGet (v : JValue) (field : String) : Option JValue :=
  match v with
  | .obj fields => (fields.find? (fun p => p.1 == field)).map (fun p => p.2)
  | _ => none

/-- Minimal model of `JSON.stringify` applied to a string (quote wrapping
plus escaping of quotes and backslashes; other escapes elided). -/
def jsStringifyString (s : String) : String :=
  let esc (ch : Char) : String :=
    if ch = '"' then "\\\"" else if ch = '\\' then "\\\\" else String.singleton ch
  "\"" ++ String.join (s.toList.map esc) ++ "\""

/-- Model of `JSON.stringify` on a `JValue`. -/
def jsonStringify : JValue → String
  | .null => "null"
  | .bool b => if b then "true" else "false"
  | .num n => toString n
  | .str s => jsStringifyString s
  | .arr elems =>
      "[" ++ String.intercalate "," (elems.attach.map (fun x => jsonStringify x.1)) ++ "]"
  | .obj fields =>
      "\x7b" ++ String.intercalate ","
        (fields.attach.map (fun x => jsStringifyString x.1.1 ++ ":" ++ jsonStringify x.1.2))
        ++ "\x7d"
decreasing_by
  · have := List.sizeOf_lt_of_mem x.2; simp at this ⊢; omega
  · have := List.sizeOf_lt_of_mem x.2; simp at this ⊢
    rcases x with ⟨⟨k, v⟩, hmem⟩; simp at this ⊢; omega

/-- `ApiErrorType` from `apiError.ts`. -/
inductive ApiErrorType where
  | network
  | authentication
  | rateLimit
  | notFound
  | serverError
  | unknown
deriving Repr, DecidableEq

/-- `ApiError` from `apiError.ts`: a failure record carrying a
classification, an optional HTTP status code and a retryability flag. -/
structure ApiError where
  message : String
  type : ApiErrorType
  statusCode : Option Nat
  retryable : Bool
deriving Repr, DecidableEq

/-- A thrown JavaScript failure: either an `ApiError` instance or some
other JS `Error` (network exception, JSON-parse error, contract
violation), identified by its message. -/
inductive JsFailure where
  | api (e : ApiError) : JsFailure
  | js (msg : String) : JsFailure
deriving Repr, DecidableEq

/-- Whether a thrown failure is an `ApiError` (`error instanceof ApiError`). -/
def JsFailure.isApi : JsFailure → Bool
  | .api _ => true
  | .js _ => false

/-- An HTTP response as observed by the client: status, status text, and
the JSON body (`none` when `response.json()` would throw). -/
structure HttpResponse where
  status : Nat
  statusText : String
  body : Option JValue
deriving Repr

/-- `response.ok` of the fetch API: status in the range 200–299. -/
def responseOk (r : HttpResponse) : Bool :=
  200 ≤ r.status && r.status < 300

/-- The `switch (response.status)` of `handleApiResponse`
(`azureDevOpsClient.ts` lines 222–247): maps an HTTP status to the
`(errorType, retryable)` pair. -/
def classifyStatus (status : Nat) : ApiErrorType × Bool :=
  if status = 401 ∨ status = 403 then (.authentication, false)
  else if status = 404 then (.notFound, false)
  else if status = 429 then (.rateLimit, true)
  else if status = 500 ∨ status = 502 ∨ status = 503 ∨ status = 504 then (.serverError, true)
  else (.unknown, decide (500 ≤ status))

/-- `handleApiResponse` (`azureDevOpsClient.ts` lines 212–265): on a
success status return the parsed JSON (a parse failure is a thrown
non-`ApiError`); on a failure status classify and throw an `ApiError`
carrying the raw status code. -/
def handleApiResponse (r : HttpResponse) : Except JsFailure JValue :=
  if responseOk r then
    match r.body with
    | some v => .ok v
    | none => .error (.js "Unexpected token: response body is not valid JSON")
  else
    let classified := classifyStatus r.status
    let errorDetails := match r.body with
      | some v => jsonStringify v
      | none => r.statusText
    .error (.api
      { message := "API request failed (" ++ toString r.status ++ "): " ++ errorDetails
        type := classified.1
        statusCode := some r.status
        retryable := classified.2 })

/-- `IAzureDevOpsAuthSettings` from `types/ado.ts` as used by the client. -/
structure AuthSettings where
  organizationUrl : String
  personalAccessToken : String
deriving Repr, DecidableEq

/-- One cache entry (`ICacheEntry<T>`): the cached data plus its absolute
expiry timestamp. -/
structure CacheEntry where
  data : JValue
  expiry : Nat
deriving Repr

/-- The client's `Map<string, ICacheEntry<unknown>>`, as an association
list in which `cacheSet` replaces any existing binding for the key. -/
def Cache := List (String × CacheEntry)

/-- `Map.get`. -/
def cacheGet (c : Cache) (k : String) : Option CacheEntry :=
  ((List.find? (fun e => e.1 == k)) c).map (fun e => e.2)

/-- `Map.set` (replaces the binding for `k` when present). -/
def cacheSet (c : Cache) (k : String) (v : CacheEntry) : Cache :=
  (k, v) :: (List.filter (fun e => e.1 != k)) c

/-- `Map.delete`. -/
def cacheDelete (c : Cache) (k : String) : Cache :=
  (List.filter (fun e => e.1 != k)) c

/-- `IAzureDevOpsClientOptions` (constructor options, each optional). -/
structure ClientOptions where
  baseUrl : Option String := none
  apiVersion : Option String := none
  maxRetries : Option Nat := none
  cacheTtl : Option Nat := none

/-- JavaScript `x || d` for an optional number: `undefined` and `0` are
falsy and fall back to the default. -/
def orDefaultNat (x : Option Nat) (d : Nat) : Nat :=
  match x with
  | some v => if v = 0 then d else v
  | none => d

/-- JavaScript `x || d` for an optional string: `undefined` and `""` are
falsy and fall back to the default. -/
def orDefaultStr (x : Option String) (d : String) : String :=
  match x with
  | some v => if v.isEmpty then d else v
  | none => d

/-- UTF-8 encoding of one character, as a list of byte values. -/
def charUtf8Bytes (c : Char) : List Nat :=
  let n := c.toNat
  if n < 128 then [n]
  else if n < 2048 then [192 + n / 64, 128 + n % 64]
  else if n < 65536 then [224 + n / 4096, 128 + (n / 64) % 64, 128 + n % 64]
  else [240 + n / 262144, 128 + (n / 4096) % 64, 128 + (n / 64) % 64, 128 + n % 64]

/-- UTF-8 bytes of a string (model of `Buffer.from(s)`). -/
def strBytes (s : String) : List Nat :=
  (s.toList.map charUtf8Bytes).flatten

/-- The base64 alphabet. -/
def base64Chars : List Char :=
  "ABCDEFGHIJKLMNOPQRSTUVWXYZabcdefghijklmnopqrstuvwxyz0123456789+/".toList

/-- The base64 digit for a 6-bit value. -/
def b64Char (n : Nat) : Char := base64Chars.getD n 'A'

/-- Standard base64 encoding of a byte sequence
(model of `Buffer.toString('base64')`). -/
def base64Encode : List Nat → String
  | [] => ""
  | [a] =>
      String.mk [b64Char (a / 4), b64Char (a % 4 * 16)] ++ "=="
  | [a, b] =>
      String.mk [b64Char (a / 4), b64Char (a % 4 * 16 + b / 16), b64Char (b % 16 * 4)] ++ "="
  | a :: b :: c :: rest =>
      String.mk [b64Char (a / 4), b64Char (a % 4 * 16 + b / 16),
        b64Char (b % 16 * 4 + c / 64), b64Char (c % 64)] ++ base64Encode rest

/-- The mutable state of `AzureDevOpsClient`. -/
structure Client where
  authSettings : Option AuthSettings
  baseUrl : String
  apiVersion : String
  headers : List (String × String)
  maxRetries : Nat
  cacheTtl : Nat
  cache : Cache
  testMode : Bool

/-- Object-property assignment on the header record (replaces any
existing binding). -/
def headersSet (h : List (String × String)) (k v : String) : List (String × String) :=
  (k, v) :: (List.filter (fun e => e.1 != k)) h

/-- The private constructor (`azureDevOpsClient.ts` lines 88–99):
defaults via JavaScript `||`, a fresh empty cache, default headers. -/
def mkClient (options : ClientOptions) : Client :=
  { authSettings := none
    baseUrl := orDefaultStr options.baseUrl "https://dev.azure.com/"
    apiVersion := orDefaultStr options.apiVersion "7.1"
    maxRetries := orDefaultNat options.maxRetries 3
    cacheTtl := orDefaultNat options.cacheTtl (5 * 60 * 1000)
    headers := [("Accept", "application/json"), ("Content-Type", "application/json")]
    cache := []
    testMode := false }

/-- `clearCache` (lines 192–194): empties the whole cache. -/
def clearCache (c : Client) : Client :=
  { c with cache := [] }

/-- The client's `initialize` method (lines 114–123): store the auth
settings, set the `Authorization` header to `Basic base64(":" + token)`,
and clear the entire cache.  (Named `initClient` here because the source
name is a reserved word.) -/
def initClient (c : Client) (auth : AuthSettings) : Client :=
  let base64Token := base64Encode (strBytes (":" ++ auth.personalAccessToken))
  clearCache
    { c with
        authSettings := some auth
        headers := headersSet c.headers "Authorization" ("Basic " ++ base64Token) }

/-- The message of the error thrown by `ensureInitialized` (lines 128–132). -/
def uninitializedMsg : String :=
  "AzureDevOpsClient is not initialized. Call initialize() first."

/-- `url.pathname` of `new URL(u)`: the part after scheme and host,
before any query or fragment (sufficient for the URLs in scope). -/
def urlPathname (u : String) : String :=
  let afterScheme :=
    match u.splitOn "://" with
    | _ :: rest :: _ => rest
    | _ => u
  let beforeQuery := (afterScheme.splitOn "?").headD ""
  let beforeFrag := (beforeQuery.splitOn "#").headD ""
  match beforeFrag.splitOn "/" with
  | _ :: pathParts => String.join (pathParts.map (fun p => "/" ++ p))
  | [] => ""

/-- `getOrganizationName` (lines 137–144): requires initialization, then
takes the first non-empty path segment of the organization URL. -/
def getOrganizationName (c : Client) : Except JsFailure String :=
  match c.authSettings with
  | none => .error (.js uninitializedMsg)
  | some auth =>
      let pathParts := ((urlPathname auth.organizationUrl).splitOn "/").filter
        (fun p => !p.isEmpty)
      .ok (pathParts.headD "")

/-- `IRequestOptions`: per-request method, headers, body and cache
opt-out. -/
structure RequestOptions where
  method : Option String := none
  headers : List (String × String) := []
  body : Option String := none
  skipCache : Bool := false

/-- `getCacheKey` (lines 157–161): path concatenated with
`"-" + JSON.stringify(body)` when the body is truthy. -/
def getCacheKey (path : String) (options : RequestOptions) : String :=
  let bodyKey := match options.body with
    | some b => if b.isEmpty then "" else "-" ++ jsStringifyString b
    | none => ""
  path ++ bodyKey

/-- Whether the request is looked up in / written to the cache
(`!options.skipCache && (method === undefined || method === 'GET')`). -/
def cacheEligible (options : RequestOptions) : Bool :=
  !options.skipCache && (options.method == none || options.method == some "GET")

/-- `getFromCache` (lines 166–179): `none` on a missing or expired entry
(an expired entry is deleted); otherwise the stored data. -/
def getFromCache (c : Client) (key : String) (now : Nat) : Option JValue × Client :=
  match cacheGet c.cache key with
  | none => (none, c)
  | some entry =>
      if entry.expiry < now then (none, { c with cache := cacheDelete c.cache key })
      else (some entry.data, c)

/-- `setInCache` (lines 184–187): store with expiry `now + cacheTtl`. -/
def setInCache (c : Client) (key : String) (data : JValue) (now : Nat) : Client :=
  { c with cache := cacheSet c.cache key { data := data, expiry := now + c.cacheTtl } }

/-- `isRetryableError` (lines 199–207): an `ApiError` is retryable per
its flag; every other thrown value is not retryable. -/
def isRetryableError : JsFailure → Bool
  | .api e => e.retryable
  | .js _ => false

/-- What `fetch` does on one network attempt: either it yields an HTTP
response or it throws a network-layer exception. -/
inductive FetchOutcome where
  | response (r : HttpResponse) : FetchOutcome
  | exception (msg : String) : FetchOutcome

/-- The result of one iteration body of the retry loop: the fetch outcome
of attempt `i` passed through `handleApiResponse`. -/
def attemptResult (f : Nat → FetchOutcome) (i : Nat) : Except JsFailure JValue :=
  match f i with
  | .exception m => .error (.js m)
  | .response r => handleApiResponse r

/-- The `while (true)` retry loop of `request` (lines 300–332), entered
with attempt counter `attempt`.  Returns the final outcome and the total
number of network attempts made.  After a failure the counter is
incremented and the loop stops when it has reached `maxRetries` or the
failure is not retryable. -/
def requestLoop (f : Nat → FetchOutcome) (maxRetries : Nat) (attempt : Nat) :
    Except JsFailure JValue × Nat :=
  match attemptResult f attempt with
  | .ok v => (.ok v, attempt + 1)
  | .error e =>
      if maxRetries ≤ attempt + 1 ∨ isRetryableError e = false then
        (.error e, attempt + 1)
      else
        requestLoop f maxRetries (attempt + 1)
termination_by maxRetries - attempt
decreasing_by simp at *; omega

/-- The observable result of a client operation: the returned value or
thrown failure, the updated client state, and the number of network
attempts (`fetch` invocations) made. -/
structure OpResult (α : Type) where
  result : Except JsFailure α
  client : Client
  networkCalls : Nat

/-- `request` (lines 278–333): require initialization; on a cache-eligible
call return a live truthy cached value without touching the network;
otherwise run the retry loop and cache a successful result when
eligible. -/
def request (c : Client) (path : String) (options : RequestOptions) (now : Nat)
    (f : Nat → FetchOutcome) : OpResult JValue :=
  match c.authSettings with
  | none => ⟨.error (.js uninitializedMsg), c, 0⟩
  | some _ =>
      let cacheKey := getCacheKey path options
      let checked :=
        if cacheEligible options then getFromCache c cacheKey now else (none, c)
      let cachedData := checked.1
      let c1 := checked.2
      -- `if (cachedData) return cachedData;` — JavaScript truthiness
      if (cachedData.map truthy).getD false then
        ⟨.ok (cachedData.getD .null), c1, 0⟩
      else
        let looped := requestLoop f c1.maxRetries 0
        match looped.1 with
        | .ok v =>
            let c2 := if cacheEligible options then setInCache c1 cacheKey v now else c1
            ⟨.ok v, c2, looped.2⟩
        | .error e => ⟨.error e, c1, looped.2⟩

/-- `buildUrl` (lines 149–152) on an initialized client:
`baseUrl + organization + "/" + path + "?api-version=" + apiVersion`.
The URL is passed to `fetch`, whose behavior the outcome function `f`
abstracts, so `request` does not otherwise consume it. -/
def buildUrl (c : Client) (path : String) : Except JsFailure String :=
  (getOrganizationName c).map
    (fun org => c.baseUrl ++ org ++ "/" ++ path ++ "?api-version=" ++ c.apiVersion)

/-- `PullRequestStatus` from `types/ado.ts`. -/
inductive PullRequestStatus where
  | abandoned
  | active
  | completed
  | notSet
deriving Repr, DecidableEq

/-- The string value of a `PullRequestStatus` enum member. -/
def PullRequestStatus.toStr : PullRequestStatus → String
  | .abandoned => "abandoned"
  | .active => "active"
  | .completed => "completed"
  | .notSet => "notSet"

/-- `getPipelineDefinitions` (lines 338–351): a GET through `request`;
the catch block logs and rethrows, so every failure propagates
unchanged. -/
def getPipelineDefinitions (c : Client) (project : String) (now : Nat)
    (f : Nat → FetchOutcome) : OpResult JValue :=
  request c (project ++ "/_apis/build/definitions") {} now f

/-- `getPipelineStatus` (lines 356–380): GET the top-1 build list; a falsy
or empty response yields `none`; a `NotFound` `ApiError` is converted to
`none`; every other failure propagates. -/
def getPipelineStatus (c : Client) (project : String) (pipelineId : Int) (now : Nat)
    (f : Nat → FetchOutcome) : OpResult (Option JValue) :=
  let r := request c
    (project ++ "/_apis/build/builds?definitions=" ++ toString pipelineId ++ "&$top=1")
    {} now f
  match r.result with
  | .ok v =>
      -- `if (!response || response.length === 0) return null; return response[0];`
      if truthy v = false then ⟨.ok none, r.client, r.networkCalls⟩
      else
        match v with
        | .arr [] => ⟨.ok none, r.client, r.networkCalls⟩
        | .arr (b :: _) => ⟨.ok (some b), r.client, r.networkCalls⟩
        | _ => ⟨.ok none, r.client, r.networkCalls⟩
  | .error e =>
      match e with
      | .api ae =>
          if ae.type = .notFound then ⟨.ok none, r.client, r.networkCalls⟩
          else ⟨.error e, r.client, r.networkCalls⟩
      | .js _ => ⟨.error e, r.client, r.networkCalls⟩

/-- `getPullRequests` (lines 385–404): GET, result is `response.value`;
a `NotFound` `ApiError` is converted to an empty array; every other
failure propagates. -/
def getPullRequests (c : Client) (project repository : String)
    (status : PullRequestStatus) (now : Nat) (f : Nat → FetchOutcome) : OpResult JValue :=
  let r := request c
    (project ++ "/_apis/git/repositories/" ++ repository
      ++ "/pullrequests?searchCriteria.status=" ++ status.toStr)
    {} now f
  match r.result with
  | .ok v => ⟨.ok ((jGet v "value").getD .null), r.client, r.networkCalls⟩
  | .error e =>
      match e with
      | .api ae =>
          if ae.type = .notFound then ⟨.ok (.arr []), r.client, r.networkCalls⟩
          else ⟨.error e, r.client, r.networkCalls⟩
      | .js _ => ⟨.error e, r.client, r.networkCalls⟩

/-- `getRepositories` (lines 504–523): GET, result is `response.value`;
a `NotFound` `ApiError` is converted to an empty array; every other
failure propagates. -/
def getRepositories (c : Client) (project : String) (now : Nat)
    (f : Nat → FetchOutcome) : OpResult JValue :=
  let r := request c (project ++ "/_apis/git/repositories") {} now f
  match r.result with
  | .ok v => ⟨.ok ((jGet v "value").getD .null), r.client, r.networkCalls⟩
  | .error e =>
      match e with
      | .api ae =>
          if ae.type = .notFound then ⟨.ok (.arr []), r.client, r.networkCalls⟩
          else ⟨.error e, r.client, r.networkCalls⟩
      | .js _ => ⟨.error e, r.client, r.networkCalls⟩

/-- `getProjects` (lines 486–497): a GET through `request`; the catch
block logs and rethrows, so every failure propagates unchanged. -/
def getProjects (c : Client) (top skip : Nat) (now : Nat)
    (f : Nat → FetchOutcome) : OpResult JValue :=
  request c
    ("_apis/projects?$top=" ++ toString top ++ "&$skip=" ++ toString skip
      ++ "&stateFilter=All")
    {} now f

/-- `getLatestPipelineRunUrl` (lines 531–555): fetch the latest build via
`getPipelineStatus` (a network operation) and return its `url` property;
`none` when no build exists; a `NotFound` `ApiError` is converted to
`none`; every other failure propagates. -/
def getLatestPipelineRunUrl (c : Client) (project : String) (pipelineId : Int)
    (now : Nat) (f : Nat → FetchOutcome) : OpResult (Option JValue) :=
  let r := getPipelineStatus c project pipelineId now f
  match r.result with
  | .ok none => ⟨.ok none, r.client, r.networkCalls⟩
  | .ok (some build) => ⟨.ok (jGet build "url"), r.client, r.networkCalls⟩
  | .error e =>
      match e with
      | .api ae =>
          if ae.type = .notFound then ⟨.ok none, r.client, r.networkCalls⟩
          else ⟨.error e, r.client, r.networkCalls⟩
      | .js _ => ⟨.error e, r.client, r.networkCalls⟩

/-- The options object of `getPullRequestListUrl`. -/
structure PrListUrlOptions where
  projectId : String
  repositoryId : Option String := none
  organizationUrl : String
  repositoryName : Option String := none

/-- `getPullRequestListUrl` (lines 562–579): pure string building on its
arguments — it reads no client state, performs no initialization check
and issues no network request.  The repository-scoped URL is used only
when `repositoryId` is truthy and not `'all'` and `repositoryName` is
truthy; otherwise the project-wide URL. -/
def getPullRequestListUrl (_c : Client) (options : PrListUrlOptions) : String :=
  let projectUrl := options.organizationUrl ++ "/" ++ options.projectId
    ++ "/_pulls?state=active"
  let useRepo :=
    match options.repositoryId, options.repositoryName with
    | some rid, some rname => !rid.isEmpty && rid != "all" && !rname.isEmpty
    | _, _ => false
  if useRepo then
    options.organizationUrl ++ "/" ++ options.projectId ++ "/_git/"
      ++ (options.repositoryName.getD "") ++ "/pullrequests?state=active"
  else projectUrl

/-- `queuePipelineRun` (lines 588–623): POST with a JSON body holding the
definition id and, when the branch argument is truthy, the source branch;
always sent with `skipCache`; the catch block rethrows every failure. -/
def queuePipelineRun (c : Client) (project : String) (pipelineId : Int)
    (branch : Option String) (now : Nat) (f : Nat → FetchOutcome) : OpResult JValue :=
  let bodyVal : JValue := .obj
    (("definition", .obj [("id", .num pipelineId)]) ::
      (match branch with
       | some b => if b.isEmpty then [] else [("sourceBranch", .str b)]
       | none => []))
  request c (project ++ "/_apis/build/builds")
    { method := some "POST", body := some (jsonStringify bodyVal), skipCache := true }
    now f

/-- `testConnection` (lines 409–478): a single direct `fetch` (no retry
loop, no cache).  An uninitialized client, a network exception, a failure
status, or a JSON-parse failure on the success body all yield `false`
through the surrounding catch; `true` exactly when the response has a
success status and its body parses. -/
def testConnection (c : Client) (outcome : FetchOutcome) : Bool :=
  match c.authSettings with
  | none => false
  | some _ =>
      match outcome with
      | .exception _ => false
      | .response r =>
          if responseOk r then
            match r.body with
            | some _ => true
            | none => false
          else false

/-! ## Basic lemmas about the client state -/

lemma initClient_authSettings (c : Client) (auth : AuthSettings) :
    (initClient c auth).authSettings = some auth := rfl

lemma initClient_cache (c : Client) (auth : AuthSettings) :
    (initClient c auth).cache = [] := rfl

lemma initClient_maxRetries (c : Client) (auth : AuthSettings) :
    (initClient c auth).maxRetries = c.maxRetries := rfl

lemma initClient_cacheTtl (c : Client) (auth : AuthSettings) :
    (initClient c auth).cacheTtl = c.cacheTtl := rfl

lemma mkClient_maxRetries_pos (o : ClientOptions) : 1 ≤ (mkClient o).maxRetries := by
  show 1 ≤ orDefaultNat o.maxRetries 3
  cases h : o.maxRetries with
  | none => simp [orDefaultNat]
  | some v =>
      by_cases hv : v = 0 <;> simp [orDefaultNat, hv] <;> omega

lemma cacheGet_nil (k : String) : cacheGet [] k = none := rfl

lemma cacheGet_cacheSet_self (c : Cache) (k : String) (v : CacheEntry) :
    cacheGet (cacheSet c k v) k = some v := by
  simp [cacheGet, cacheSet]

/-! ## Lemmas about the retry loop -/

lemma requestLoop_ok (f : Nat → FetchOutcome) (R a : Nat) (v : JValue)
    (hok : attemptResult f a = .ok v) :
    requestLoop f R a = (.ok v, a + 1) := by
  rw [requestLoop]
  simp [hok]

lemma requestLoop_stop (f : Nat → FetchOutcome) (R a : Nat) (e : JsFailure)
    (hfail : attemptResult f a = .error e)
    (hstop : R ≤ a + 1 ∨ isRetryableError e = false) :
    requestLoop f R a = (.error e, a + 1) := by
  rw [requestLoop]
  simp only [hfail]
  rcases hstop with h | h <;> simp [h]

lemma requestLoop_step (f : Nat → FetchOutcome) (R a : Nat) (e : JsFailure)
    (hfail : attemptResult f a = .error e)
    (hcont : a + 1 < R) (hret : isRetryableError e = true) :
    requestLoop f R a = requestLoop f R (a + 1) := by
  rw [requestLoop]
  simp only [hfail]
  rw [if_neg]
  rintro (h | h)
  · omega
  · rw [hret] at h
    simp at h

lemma requestLoop_skip (f : Nat → FetchOutcome) (R : Nat) (errs : Nat → JsFailure)
    (k : Nat) (hkR : k < R) :
    ∀ a, a ≤ k →
    (∀ i, a ≤ i → i < k → attemptResult f i = .error (errs i) ∧
      isRetryableError (errs i) = true) →
    requestLoop f R a = requestLoop f R k := by
  intro a hak h
  obtain ⟨n, hn⟩ : ∃ n, k - a = n := ⟨_, rfl⟩
  induction n generalizing a with
  | zero =>
      have : a = k := by omega
      subst this; rfl
  | succ n ih =>
      have ha : a < k := by omega
      have hfa := h a le_rfl ha
      rw [requestLoop_step f R a (errs a) hfa.1 (by omega) hfa.2]
      exact ih (a + 1) (by omega) (fun i h1 h2 => h i (by omega) h2) (by omega)

/-- Reduction of `request` to the retry loop on an initialized client when
the cache cannot serve the call (either the call is not cache-eligible or
there is no entry under the key). -/
lemma request_fresh (c : Client) (path : String) (ropts : RequestOptions) (now : Nat)
    (f : Nat → FetchOutcome) (auth : AuthSettings)
    (hinit : c.authSettings = some auth)
    (hmiss : cacheEligible ropts = true →
      cacheGet c.cache (getCacheKey path ropts) = none) :
    (request c path ropts now f).result = (requestLoop f c.maxRetries 0).1 ∧
    (request c path ropts now f).networkCalls = (requestLoop f c.maxRetries 0).2 := by
  unfold request
  rw [hinit]
  by_cases he : cacheEligible ropts = true
  · rw [he] at hmiss ⊢
    simp only [if_true, getFromCache, hmiss rfl]
    cases hr : requestLoop f c.maxRetries 0 with
    | mk res n =>
        cases res <;> simp [hr]
  · simp only [Bool.not_eq_true] at he
    simp only [he]
    simp only [Bool.false_eq_true, if_false]
    cases hr : requestLoop f c.maxRetries 0 with
    | mk res n =>
        cases res <;> simp [hr, he]

/-- A cache-eligible `request` on a cache miss runs the retry loop and, on
success, stores the value under the key with expiry `now + cacheTtl`. -/
lemma request_fresh_full (c : Client) (path : String) (ropts : RequestOptions)
    (now : Nat) (f : Nat → FetchOutcome) (auth : AuthSettings)
    (hinit : c.authSettings = some auth)
    (helig : cacheEligible ropts = true)
    (hmiss : cacheGet c.cache (getCacheKey path ropts) = none) :
    request c path ropts now f =
      match requestLoop f c.maxRetries 0 with
      | (.ok v, n) => ⟨.ok v, setInCache c (getCacheKey path ropts) v now, n⟩
      | (.error e, n) => ⟨.error e, c, n⟩ := by
  unfold request
  rw [hinit]
  simp only [helig, if_true, getFromCache, hmiss]
  cases hr : requestLoop f c.maxRetries 0 with
  | mk res n => cases res <;> simp [hr, helig]

/-- A cache-eligible `request` that finds a live truthy entry returns it
with no network attempt and no state change. -/
lemma request_hit (c : Client) (path : String) (ropts : RequestOptions)
    (now : Nat) (f : Nat → FetchOutcome) (auth : AuthSettings) (entry : CacheEntry)
    (hinit : c.authSettings = some auth)
    (helig : cacheEligible ropts = true)
    (hfound : cacheGet c.cache (getCacheKey path ropts) = some entry)
    (hlive : ¬ entry.expiry < now)
    (htruthy : truthy entry.data = true) :
    request c path ropts now f = ⟨.ok entry.data, c, 0⟩ := by
  unfold request
  rw [hinit]
  simp [helig, getFromCache, hfound, hlive, htruthy]

/-- A cache-eligible `request` that finds an expired entry makes the same
network attempts as a cache miss. -/
lemma request_expired_calls (c : Client) (path : String) (ropts : RequestOptions)
    (now : Nat) (f : Nat → FetchOutcome) (auth : AuthSettings) (entry : CacheEntry)
    (hinit : c.authSettings = some auth)
    (helig : cacheEligible ropts = true)
    (hfound : cacheGet c.cache (getCacheKey path ropts) = some entry)
    (hexp : entry.expiry < now) :
    (request c path ropts now f).networkCalls = (requestLoop f c.maxRetries 0).2 := by
  unfold request
  rw [hinit]
  simp only [helig, if_true, getFromCache, hfound, hexp]
  cases hr : requestLoop f c.maxRetries 0 with
  | mk res n => cases res <;> simp [hr]

/-- A cache-eligible `request` that finds a live but falsy entry behaves
like a miss for the network (the `if (cachedData)` truthiness test
fails): it runs the retry loop and re-stores a successful result. -/
lemma request_found_falsy (c : Client) (path : String) (ropts : RequestOptions)
    (now : Nat) (f : Nat → FetchOutcome) (auth : AuthSettings) (entry : CacheEntry)
    (hinit : c.authSettings = some auth)
    (helig : cacheEligible ropts = true)
    (hfound : cacheGet c.cache (getCacheKey path ropts) = some entry)
    (hlive : ¬ entry.expiry < now)
    (hfalsy : truthy entry.data = false) :
    request c path ropts now f =
      match requestLoop f c.maxRetries 0 with
      | (.ok v, n) => ⟨.ok v, setInCache c (getCacheKey path ropts) v now, n⟩
      | (.error e, n) => ⟨.error e, c, n⟩ := by
  unfold request
  rw [hinit]
  simp only [helig, if_true, getFromCache, hfound, hlive, if_false, hfalsy]
  cases hr : requestLoop f c.maxRetries 0 with
  | mk res n => cases res <;> simp [hr, helig, hfalsy]

lemma setInCache_authSettings (c : Client) (k : String) (d : JValue) (now : Nat) :
    (setInCache c k d now).authSettings = c.authSettings := rfl

lemma setInCache_maxRetries (c : Client) (k : String) (d : JValue) (now : Nat) :
    (setInCache c k d now).maxRetries = c.maxRetries := rfl

lemma setInCache_cacheTtl (c : Client) (k : String) (d : JValue) (now : Nat) :
    (setInCache c k d now).cacheTtl = c.cacheTtl := rfl

lemma setInCache_cache (c : Client) (k : String) (d : JValue) (now : Nat) :
    (setInCache c k d now).cache = cacheSet c.cache k ⟨d, now + c.cacheTtl⟩ := rfl

/-! ## Claim theorems -/

/-- C1: for every HTTP failure response handled by the client, the
constructed `ApiError`'s `(kind, retryable)` pair is exactly determined by
the status — 401/403 ↦ (Authentication, false); 404 ↦ (NotFound, false);
429 ↦ (RateLimit, true); 500/502/503/504 ↦ (ServerError, true); any other
status ≥ 500 ↦ (Unknown, true); any other status ↦ (Unknown, false) — and
the error always carries the raw status code. -/
theorem handleApiResponse_classification (r : HttpResponse)
    (h : responseOk r = false) :
    ∃ e : ApiError, handleApiResponse r = .error (.api e) ∧
      e.statusCode = some r.status ∧
      (e.type, e.retryable) =
        (if r.status = 401 ∨ r.status = 403 then (ApiErrorType.authentication, false)
         else if r.status = 404 then (ApiErrorType.notFound, false)
         else if r.status = 429 then (ApiErrorType.rateLimit, true)
         else if r.status = 500 ∨ r.status = 502 ∨ r.status = 503 ∨ r.status = 504 then
           (ApiErrorType.serverError, true)
         else if 500 ≤ r.status then (ApiErrorType.unknown, true)
         else (ApiErrorType.unknown, false)) := by
  unfold handleApiResponse
  simp only [h, Bool.false_eq_true, if_false]
  refine ⟨_, rfl, rfl, ?_⟩
  unfold classifyStatus
  split_ifs with h1 h2 h3 h4 h5 <;> simp_all

/-- Witness for C1 at a concrete 404 response. -/
theorem handleApiResponse_classification_witness :
    responseOk ⟨404, "Not Found", none⟩ = false ∧
    ∃ e : ApiError, handleApiResponse ⟨404, "Not Found", none⟩ = .error (.api e) ∧
      e.statusCode = some 404 ∧
      (e.type, e.retryable) = (ApiErrorType.notFound, false) :=
  ⟨by decide, handleApiResponse_classification ⟨404, "Not Found", none⟩ (by decide)⟩

/-- C2: on an initialized client with retry ceiling `R = maxRetries`,
(1) a run of at least `R` consecutive retryable failures makes exactly
`min N R = R` network attempts and propagates the error of the last
attempt; (2) `N < R` consecutive retryable failures followed by a success
make exactly `min N R = N` failing attempts plus the succeeding one; and
(3) a failure that is not retryable is propagated right after the attempt
that produced it, with no further network attempts. -/
theorem request_retry_ceiling (c : Client) (auth : AuthSettings)
    (hinit : c.authSettings = some auth) (hcache : c.cache = [])
    (hR : 1 ≤ c.maxRetries)
    (path : String) (ropts : RequestOptions) (now : Nat) :
    (∀ (f : Nat → FetchOutcome) (errs : Nat → JsFailure) (N : Nat),
       c.maxRetries ≤ N →
       (∀ i, i < N → attemptResult f i = .error (errs i) ∧
         isRetryableError (errs i) = true) →
       (request c path ropts now f).networkCalls = min N c.maxRetries ∧
       (request c path ropts now f).result = .error (errs (c.maxRetries - 1)))
  ∧ (∀ (f : Nat → FetchOutcome) (errs : Nat → JsFailure) (N : Nat) (v : JValue),
       N < c.maxRetries →
       (∀ i, i < N → attemptResult f i = .error (errs i) ∧
         isRetryableError (errs i) = true) →
       attemptResult f N = .ok v →
       (request c path ropts now f).networkCalls = min N c.maxRetries + 1 ∧
       (request c path ropts now f).result = .ok v)
  ∧ (∀ (f : Nat → FetchOutcome) (errs : Nat → JsFailure) (k : Nat) (e : JsFailure),
       k + 1 ≤ c.maxRetries →
       (∀ i, i < k → attemptResult f i = .error (errs i) ∧
         isRetryableError (errs i) = true) →
       attemptResult f k = .error e → isRetryableError e = false →
       (request c path ropts now f).networkCalls = k + 1 ∧
       (request c path ropts now f).result = .error e) := by
  have hmiss : cacheEligible ropts = true →
      cacheGet c.cache (getCacheKey path ropts) = none := by
    intro _; rw [hcache]; rfl
  refine ⟨?_, ?_, ?_⟩
  · intro f errs N hN h
    have fresh := request_fresh c path ropts now f auth hinit hmiss
    have hskip := requestLoop_skip f c.maxRetries errs (c.maxRetries - 1)
      (by omega) 0 (by omega) (fun i h1 h2 => h i (by omega))
    have hstop := requestLoop_stop f c.maxRetries (c.maxRetries - 1)
      (errs (c.maxRetries - 1)) (h (c.maxRetries - 1) (by omega)).1 (by omega)
    rw [hskip, hstop] at fresh
    refine ⟨?_, fresh.1⟩
    rw [fresh.2]
    omega
  · intro f errs N v hN h hok
    have fresh := request_fresh c path ropts now f auth hinit hmiss
    have hskip := requestLoop_skip f c.maxRetries errs N hN 0 (by omega)
      (fun i h1 h2 => h i h2)
    have hend := requestLoop_ok f c.maxRetries N v hok
    rw [hskip, hend] at fresh
    refine ⟨?_, fresh.1⟩
    rw [fresh.2]
    omega
  · intro f errs k e hk h hfail hnret
    have fresh := request_fresh c path ropts now f auth hinit hmiss
    have hskip := requestLoop_skip f c.maxRetries errs k (by omega) 0 (by omega)
      (fun i h1 h2 => h i h2)
    have hend := requestLoop_stop f c.maxRetries k e hfail (Or.inr hnret)
    rw [hskip, hend] at fresh
    exact ⟨fresh.2, fresh.1⟩

/-- Witness for C2: ceiling 3, five consecutive 503 failures — exactly
`min 5 3 = 3` network attempts and the last attempt's error propagated. -/
theorem request_retry_ceiling_witness :
    (request (initClient (mkClient {}) ⟨"https://dev.azure.com/acme", "tok"⟩)
        "proj/_apis/build/definitions" {} 0
        (fun _ => .response ⟨503, "Service Unavailable", none⟩)).networkCalls = 3 ∧
    (request (initClient (mkClient {}) ⟨"https://dev.azure.com/acme", "tok"⟩)
        "proj/_apis/build/definitions" {} 0
        (fun _ => .response ⟨503, "Service Unavailable", none⟩)).result =
      .error (.api
        { message := "API request failed (503): Service Unavailable"
          type := .serverError
          statusCode := some 503
          retryable := true }) := by
  have h := (request_retry_ceiling
      (initClient (mkClient {}) ⟨"https://dev.azure.com/acme", "tok"⟩)
      ⟨"https://dev.azure.com/acme", "tok"⟩ rfl rfl (by decide)
      "proj/_apis/build/definitions" {} 0).1
    (fun _ => .response ⟨503, "Service Unavailable", none⟩)
    (fun _ => .api
      { message := "API request failed (503): Service Unavailable"
        type := .serverError
        statusCode := some 503
        retryable := true })
    5 (by decide) (fun i _ => ⟨rfl, rfl⟩)
  exact ⟨h.1, h.2⟩

/-- C3 counterexample: the cache hit test is JavaScript truthiness
(`if (cachedData)`), so a cached falsy value (here the JSON value `null`)
is treated as a miss.  Two identical cache-eligible GET calls at times 0
and 1 — well inside the 300000 ms TTL — make two network calls, not the
one the claim requires. -/
theorem cache_truthiness_counterexample :
    cacheEligible {} = true ∧
    (1 : Nat) ≤ 0 + (initClient (mkClient {}) ⟨"https://dev.azure.com/acme", "tok"⟩).cacheTtl ∧
    (request (initClient (mkClient {}) ⟨"https://dev.azure.com/acme", "tok"⟩)
        "proj/_apis/build/builds?definitions=42&$top=1" {} 0
        (fun _ => .response ⟨200, "OK", some .null⟩)).networkCalls
      + (request
          (request (initClient (mkClient {}) ⟨"https://dev.azure.com/acme", "tok"⟩)
            "proj/_apis/build/builds?definitions=42&$top=1" {} 0
            (fun _ => .response ⟨200, "OK", some .null⟩)).client
          "proj/_apis/build/builds?definitions=42&$top=1" {} 1
          (fun _ => .response ⟨200, "OK", some .null⟩)).networkCalls = 2 := by
  refine ⟨rfl, by decide, ?_⟩
  have A := request_fresh_full
    (initClient (mkClient {}) ⟨"https://dev.azure.com/acme", "tok"⟩)
    "proj/_apis/build/builds?definitions=42&$top=1" {} 0
    (fun _ => .response ⟨200, "OK", some .null⟩)
    ⟨"https://dev.azure.com/acme", "tok"⟩ rfl rfl rfl
  rw [requestLoop_ok (fun _ => .response ⟨200, "OK", some .null⟩) _ 0 .null rfl] at A
  have B := request_found_falsy
    (setInCache (initClient (mkClient {}) ⟨"https://dev.azure.com/acme", "tok"⟩)
      (getCacheKey "proj/_apis/build/builds?definitions=42&$top=1" {}) .null 0)
    "proj/_apis/build/builds?definitions=42&$top=1" {} 1
    (fun _ => .response ⟨200, "OK", some .null⟩)
    ⟨"https://dev.azure.com/acme", "tok"⟩ ⟨.null, 300000⟩ rfl rfl rfl (by decide) rfl
  rw [requestLoop_ok (fun _ => .response ⟨200, "OK", some .null⟩) _ 0 .null rfl] at B
  simp only [A]
  simp only [B]

/-- C3 as amended: for cache-eligible GET calls whose successful response
value is truthy, two calls with identical path and body within the TTL
window make exactly one network call; a call issued after TTL expiry makes
a new network call; and no call ever returns data from an entry whose
expiry has passed (this last part holds for all entries). -/
theorem request_cache_correct (c : Client) (auth : AuthSettings)
    (hinit : c.authSettings = some auth)
    (path : String) (ropts : RequestOptions)
    (helig : cacheEligible ropts = true)
    (hmiss : cacheGet c.cache (getCacheKey path ropts) = none)
    (t1 t2 : Nat) (f1 f2 : Nat → FetchOutcome) (v : JValue)
    (hok : attemptResult f1 0 = .ok v)
    (htruthy : truthy v = true)
    (hwindow : t2 ≤ t1 + c.cacheTtl) :
    ((request c path ropts t1 f1).networkCalls = 1 ∧
     (request (request c path ropts t1 f1).client path ropts t2 f2).networkCalls = 0 ∧
     (request (request c path ropts t1 f1).client path ropts t2 f2).result = .ok v)
  ∧ (∀ (t3 : Nat) (f3 : Nat → FetchOutcome) (w : JValue),
       t1 + c.cacheTtl < t3 → attemptResult f3 0 = .ok w →
       (request (request c path ropts t1 f1).client path ropts t3 f3).networkCalls = 1)
  ∧ (∀ (d : Client) (key : String) (now : Nat) (x : JValue),
       (getFromCache d key now).1 = some x →
       ∃ entry, cacheGet d.cache key = some entry ∧ entry.data = x ∧
         now ≤ entry.expiry) := by
  have h1 := request_fresh_full c path ropts t1 f1 auth hinit helig hmiss
  have hloop1 := requestLoop_ok f1 c.maxRetries 0 v hok
  rw [hloop1] at h1
  have hr1client : (request c path ropts t1 f1).client =
      setInCache c (getCacheKey path ropts) v t1 := by rw [h1]
  have hr1auth : (request c path ropts t1 f1).client.authSettings = some auth := by
    rw [hr1client, setInCache_authSettings, hinit]
  have hr1found : cacheGet (request c path ropts t1 f1).client.cache
      (getCacheKey path ropts) = some ⟨v, t1 + c.cacheTtl⟩ := by
    rw [hr1client, setInCache_cache, cacheGet_cacheSet_self]
  refine ⟨⟨by rw [h1], ?_, ?_⟩, ?_, ?_⟩
  · have h2 := request_hit (request c path ropts t1 f1).client path ropts t2 f2 auth
      ⟨v, t1 + c.cacheTtl⟩ hr1auth helig hr1found (by simp; omega) htruthy
    rw [h2]
  · have h2 := request_hit (request c path ropts t1 f1).client path ropts t2 f2 auth
      ⟨v, t1 + c.cacheTtl⟩ hr1auth helig hr1found (by simp; omega) htruthy
    rw [h2]
  · intro t3 f3 w hlate hok3
    have h3 := request_expired_calls (request c path ropts t1 f1).client path ropts t3 f3
      auth ⟨v, t1 + c.cacheTtl⟩ hr1auth helig hr1found (by simpa using hlate)
    rw [h3, requestLoop_ok _ _ 0 w hok3]
  · intro d key now x hget
    unfold getFromCache at hget
    cases hfound : cacheGet d.cache key with
    | none => rw [hfound] at hget; simp at hget
    | some entry =>
        rw [hfound] at hget
        by_cases hexp : entry.expiry < now
        · simp [hexp] at hget
        · simp [hexp] at hget
          exact ⟨entry, rfl, hget, by omega⟩

/-- Witness for the amended C3 at a concrete truthy (object) response. -/
theorem request_cache_correct_witness :
    (request (initClient (mkClient {}) ⟨"https://dev.azure.com/acme", "tok"⟩)
        "proj/_apis/git/repositories" {} 0
        (fun _ => .response ⟨200, "OK", some (.obj [("value", .arr [])])⟩)).networkCalls = 1 ∧
    (request
        (request (initClient (mkClient {}) ⟨"https://dev.azure.com/acme", "tok"⟩)
          "proj/_apis/git/repositories" {} 0
          (fun _ => .response ⟨200, "OK", some (.obj [("value", .arr [])])⟩)).client
        "proj/_apis/git/repositories" {} 100
        (fun _ => .response ⟨200, "OK", some (.obj [("value", .arr [])])⟩)).networkCalls = 0 ∧
    (request
        (request (initClient (mkClient {}) ⟨"https://dev.azure.com/acme", "tok"⟩)
          "proj/_apis/git/repositories" {} 0
          (fun _ => .response ⟨200, "OK", some (.obj [("value", .arr [])])⟩)).client
        "proj/_apis/git/repositories" {} 100
        (fun _ => .response ⟨200, "OK", some (.obj [("value", .arr [])])⟩)).result =
      .ok (.obj [("value", .arr [])]) := by
  have h := (request_cache_correct
      (initClient (mkClient {}) ⟨"https://dev.azure.com/acme", "tok"⟩)
      ⟨"https://dev.azure.com/acme", "tok"⟩ rfl
      "proj/_apis/git/repositories" {} rfl rfl 0 100
      (fun _ => .response ⟨200, "OK", some (.obj [("value", .arr [])])⟩)
      (fun _ => .response ⟨200, "OK", some (.obj [("value", .arr [])])⟩)
      (.obj [("value", .arr [])]) rfl rfl (by decide)).1
  exact ⟨h.1, h.2.1, h.2.2⟩

/-- C4 counterexample: a network-layer exception (a `fetch` rejection such
as `TypeError: Failed to fetch`, not an `ApiError`) is NOT retried.  On an
initialized client with retry ceiling 3, a single such failure is
propagated after exactly one network attempt, not the 3 the claim's
"retried up to the retry ceiling" requires.  (The repository's own test
asserts this: one fetch call, error propagated.) -/
theorem network_exception_counterexample :
    (initClient (mkClient {}) ⟨"https://dev.azure.com/acme", "tok"⟩).maxRetries = 3 ∧
    isRetryableError (.js "Failed to fetch") = false ∧
    (request (initClient (mkClient {}) ⟨"https://dev.azure.com/acme", "tok"⟩)
        "proj/_apis/build/definitions" {} 0
        (fun _ => .exception "Failed to fetch")).networkCalls = 1 ∧
    (request (initClient (mkClient {}) ⟨"https://dev.azure.com/acme", "tok"⟩)
        "proj/_apis/build/definitions" {} 0
        (fun _ => .exception "Failed to fetch")).result = .error (.js "Failed to fetch") := by
  refine ⟨rfl, rfl, ?_⟩
  have A := request_fresh (initClient (mkClient {}) ⟨"https://dev.azure.com/acme", "tok"⟩)
    "proj/_apis/build/definitions" {} 0 (fun _ => .exception "Failed to fetch")
    ⟨"https://dev.azure.com/acme", "tok"⟩ rfl (fun _ => rfl)
  rw [requestLoop_stop (fun _ => .exception "Failed to fetch") _ 0
    (.js "Failed to fetch") rfl (Or.inr rfl)] at A
  exact ⟨A.2, A.1⟩

/-- C4 as amended: a thrown failure that is not an `ApiError` (network
exceptions included) is treated as NOT retryable: `isRetryableError`
returns `false` for it, and the request loop propagates it to the caller
right after the attempt that produced it, with no further network
attempts; only `ApiError`s with `retryable = true` re-enter the backoff
loop. -/
theorem request_network_exception_not_retried (c : Client) (auth : AuthSettings)
    (hinit : c.authSettings = some auth) (hcache : c.cache = [])
    (path : String) (ropts : RequestOptions) (now : Nat)
    (f : Nat → FetchOutcome) (errs : Nat → JsFailure) (k : Nat) (m : String)
    (hk : k + 1 ≤ c.maxRetries)
    (hpre : ∀ i, i < k → attemptResult f i = .error (errs i) ∧
      isRetryableError (errs i) = true)
    (hexc : f k = .exception m) :
    isRetryableError (.js m) = false ∧
    (request c path ropts now f).result = .error (.js m) ∧
    (request c path ropts now f).networkCalls = k + 1 := by
  have hfail : attemptResult f k = .error (.js m) := by
    unfold attemptResult
    rw [hexc]
  have hmiss : cacheEligible ropts = true →
      cacheGet c.cache (getCacheKey path ropts) = none := by
    intro _; rw [hcache]; rfl
  have fresh := request_fresh c path ropts now f auth hinit hmiss
  rw [requestLoop_skip f c.maxRetries errs k (by omega) 0 (by omega)
      (fun i h1 h2 => hpre i h2),
    requestLoop_stop f c.maxRetries k (.js m) hfail (Or.inr rfl)] at fresh
  exact ⟨rfl, fresh.1, fresh.2⟩

/-- Witness for the amended C4: one immediate network exception on a fresh
initialized client. -/
theorem request_network_exception_not_retried_witness :
    isRetryableError (.js "getaddrinfo ENOTFOUND dev.azure.com") = false ∧
    (request (initClient (mkClient {}) ⟨"https://dev.azure.com/acme", "tok"⟩)
        "_apis/projects?$top=100&$skip=0&stateFilter=All" {} 0
        (fun _ => .exception "getaddrinfo ENOTFOUND dev.azure.com")).result =
      .error (.js "getaddrinfo ENOTFOUND dev.azure.com") ∧
    (request (initClient (mkClient {}) ⟨"https://dev.azure.com/acme", "tok"⟩)
        "_apis/projects?$top=100&$skip=0&stateFilter=All" {} 0
        (fun _ => .exception "getaddrinfo ENOTFOUND dev.azure.com")).networkCalls = 0 + 1 :=
  request_network_exception_not_retried
    (initClient (mkClient {}) ⟨"https://dev.azure.com/acme", "tok"⟩)
    ⟨"https://dev.azure.com/acme", "tok"⟩ rfl rfl
    "_apis/projects?$top=100&$skip=0&stateFilter=All" {} 0
    (fun _ => .exception "getaddrinfo ENOTFOUND dev.azure.com")
    (fun _ => .js "") 0 "getaddrinfo ENOTFOUND dev.azure.com"
    (by decide) (fun i h => absurd h (by omega)) rfl

/-- On a fresh initialized client, when every attempt throws the same
failure, `request` propagates that failure (after one attempt when it is
not retryable, after `maxRetries` attempts when it is). -/
lemma request_const_error (c : Client) (path : String) (ropts : RequestOptions)
    (now : Nat) (f : Nat → FetchOutcome) (auth : AuthSettings) (e : JsFailure)
    (hinit : c.authSettings = some auth) (hcache : c.cache = [])
    (hR : 1 ≤ c.maxRetries)
    (hf : ∀ i, attemptResult f i = .error e) :
    (request c path ropts now f).result = .error e := by
  have hmiss : cacheEligible ropts = true →
      cacheGet c.cache (getCacheKey path ropts) = none := by
    intro _; rw [hcache]; rfl
  have fresh := request_fresh c path ropts now f auth hinit hmiss
  by_cases hret : isRetryableError e = true
  · rw [requestLoop_skip f c.maxRetries (fun _ => e) (c.maxRetries - 1) (by omega) 0
        (by omega) (fun i h1 h2 => ⟨hf i, hret⟩),
      requestLoop_stop f c.maxRetries (c.maxRetries - 1) e (hf _) (Or.inl (by omega))]
      at fresh
    exact fresh.1
  · rw [requestLoop_stop f c.maxRetries 0 e (hf 0)
        (Or.inr (by simpa using hret))] at fresh
    exact fresh.1

/-- C5: on an error whose classification is `NotFound`, `getPipelineStatus`
returns `null` and `getPullRequests` and `getRepositories` return an empty
array without throwing, while `getProjects` and `getPipelineDefinitions`
propagate the error; an `ApiError` of any other kind is propagated
unchanged by all five operations. -/
theorem notFound_tolerance (c : Client) (auth : AuthSettings)
    (hinit : c.authSettings = some auth) (hcache : c.cache = [])
    (hR : 1 ≤ c.maxRetries)
    (now : Nat) (f : Nat → FetchOutcome) (e : ApiError)
    (hf : ∀ i, attemptResult f i = .error (.api e))
    (project repository : String) (pipelineId : Int) (status : PullRequestStatus)
    (top skip : Nat) :
    (e.type = .notFound →
      (getPipelineStatus c project pipelineId now f).result = .ok none ∧
      (getPullRequests c project repository status now f).result = .ok (.arr []) ∧
      (getRepositories c project now f).result = .ok (.arr []) ∧
      (getProjects c top skip now f).result = .error (.api e) ∧
      (getPipelineDefinitions c project now f).result = .error (.api e))
  ∧ (e.type ≠ .notFound →
      (getPipelineStatus c project pipelineId now f).result = .error (.api e) ∧
      (getPullRequests c project repository status now f).result = .error (.api e) ∧
      (getRepositories c project now f).result = .error (.api e) ∧
      (getProjects c top skip now f).result = .error (.api e) ∧
      (getPipelineDefinitions c project now f).result = .error (.api e)) := by
  have h1 := request_const_error c
    (project ++ "/_apis/build/builds?definitions=" ++ toString pipelineId ++ "&$top=1")
    {} now f auth (.api e) hinit hcache hR hf
  have h2 := request_const_error c
    (project ++ "/_apis/git/repositories/" ++ repository
      ++ "/pullrequests?searchCriteria.status=" ++ status.toStr)
    {} now f auth (.api e) hinit hcache hR hf
  have h3 := request_const_error c (project ++ "/_apis/git/repositories")
    {} now f auth (.api e) hinit hcache hR hf
  have h4 := request_const_error c
    ("_apis/projects?$top=" ++ toString top ++ "&$skip=" ++ toString skip
      ++ "&stateFilter=All")
    {} now f auth (.api e) hinit hcache hR hf
  have h5 := request_const_error c (project ++ "/_apis/build/definitions")
    {} now f auth (.api e) hinit hcache hR hf
  constructor
  · intro htype
    exact ⟨by simp [getPipelineStatus, h1, htype], by simp [getPullRequests, h2, htype],
      by simp [getRepositories, h3, htype], by simp [getProjects, h4],
      by simp [getPipelineDefinitions, h5]⟩
  · intro htype
    exact ⟨by simp [getPipelineStatus, h1, htype], by simp [getPullRequests, h2, htype],
      by simp [getRepositories, h3, htype], by simp [getProjects, h4],
      by simp [getPipelineDefinitions, h5]⟩

/-- Witness for C5 at a concrete 404 error. -/
theorem notFound_tolerance_witness :
    (getPipelineStatus (initClient (mkClient {}) ⟨"https://dev.azure.com/acme", "tok"⟩)
        "proj" 42 0 (fun _ => .response ⟨404, "Not Found", none⟩)).result = .ok none ∧
    (getPullRequests (initClient (mkClient {}) ⟨"https://dev.azure.com/acme", "tok"⟩)
        "proj" "repo" .active 0 (fun _ => .response ⟨404, "Not Found", none⟩)).result =
      .ok (.arr []) ∧
    (getRepositories (initClient (mkClient {}) ⟨"https://dev.azure.com/acme", "tok"⟩)
        "proj" 0 (fun _ => .response ⟨404, "Not Found", none⟩)).result = .ok (.arr []) ∧
    (getProjects (initClient (mkClient {}) ⟨"https://dev.azure.com/acme", "tok"⟩)
        100 0 0 (fun _ => .response ⟨404, "Not Found", none⟩)).result =
      .error (.api
        { message := "API request failed (404): Not Found"
          type := .notFound
          statusCode := some 404
          retryable := false }) ∧
    (getPipelineDefinitions (initClient (mkClient {}) ⟨"https://dev.azure.com/acme", "tok"⟩)
        "proj" 0 (fun _ => .response ⟨404, "Not Found", none⟩)).result =
      .error (.api
        { message := "API request failed (404): Not Found"
          type := .notFound
          statusCode := some 404
          retryable := false }) :=
  (notFound_tolerance (initClient (mkClient {}) ⟨"https://dev.azure.com/acme", "tok"⟩)
    ⟨"https://dev.azure.com/acme", "tok"⟩ rfl rfl (by decide) 0
    (fun _ => .response ⟨404, "Not Found", none⟩)
    { message := "API request failed (404): Not Found"
      type := .notFound
      statusCode := some 404
      retryable := false }
    (fun i => rfl) "proj" "repo" 42 .active 100 0).1 rfl

/-- C6: for every prior client state and every auth settings value,
`initialize` stores the settings, sets the `Authorization` header to the
HTTP Basic credential `base64(":" + token)`, and unconditionally empties
the entire cache — so any request issued after re-initialization finds an
empty cache and re-hits the network (one attempt when the first attempt
succeeds), never returning a pre-rotation cached value. -/
theorem initClient_spec (c : Client) (auth : AuthSettings) :
    (initClient c auth).authSettings = some auth ∧
    ((List.find? (fun e => e.1 == "Authorization") (initClient c auth).headers).map
        (fun e => e.2)) =
      some ("Basic " ++ base64Encode (strBytes (":" ++ auth.personalAccessToken))) ∧
    (initClient c auth).cache = [] ∧
    (∀ (path : String) (ropts : RequestOptions) (now : Nat) (f : Nat → FetchOutcome)
       (v : JValue), attemptResult f 0 = .ok v →
       (request (initClient c auth) path ropts now f).networkCalls = 1 ∧
       (request (initClient c auth) path ropts now f).result = .ok v) := by
  refine ⟨rfl, ?_, rfl, ?_⟩
  · simp [initClient, clearCache, headersSet, List.find?]
  · intro path ropts now f v hok
    have fresh := request_fresh (initClient c auth) path ropts now f auth rfl
      (fun _ => rfl)
    rw [requestLoop_ok f _ 0 v hok] at fresh
    exact ⟨fresh.2, fresh.1⟩

/-- Witness for C6: a client with a populated cache is re-initialized with
different credentials; the identical request re-hits the network. -/
theorem initClient_spec_witness :
    (initClient
        (setInCache (initClient (mkClient {}) ⟨"https://dev.azure.com/acme", "old"⟩)
          "proj/_apis/git/repositories" (.obj [("value", .arr [])]) 0)
        ⟨"https://dev.azure.com/acme", "new"⟩).cache = [] ∧
    (request
        (initClient
          (setInCache (initClient (mkClient {}) ⟨"https://dev.azure.com/acme", "old"⟩)
            "proj/_apis/git/repositories" (.obj [("value", .arr [])]) 0)
          ⟨"https://dev.azure.com/acme", "new"⟩)
        "proj/_apis/git/repositories" {} 1
        (fun _ => .response ⟨200, "OK", some (.obj [("value", .arr [.str "r1"])])⟩)).networkCalls
      = 1 := by
  have h := initClient_spec
    (setInCache (initClient (mkClient {}) ⟨"https://dev.azure.com/acme", "old"⟩)
      "proj/_apis/git/repositories" (.obj [("value", .arr [])]) 0)
    ⟨"https://dev.azure.com/acme", "new"⟩
  exact ⟨h.2.2.1,
    (h.2.2.2 "proj/_apis/git/repositories" {} 1
      (fun _ => .response ⟨200, "OK", some (.obj [("value", .arr [.str "r1"])])⟩)
      (.obj [("value", .arr [.str "r1"])]) rfl).1⟩

/-- C7: `testConnection` returns plainly (it is a total boolean function:
no exception propagates); it returns `true` only when the HTTP response
has a success status, and a network exception, a failure status, or an
uninitialized client yields `false`. -/
theorem testConnection_total (c : Client) (outcome : FetchOutcome) :
    (testConnection c outcome = true →
      ∃ r, outcome = .response r ∧ responseOk r = true)
  ∧ (∀ r, outcome = .response r → responseOk r = false →
      testConnection c outcome = false)
  ∧ (∀ m, outcome = .exception m → testConnection c outcome = false)
  ∧ (c.authSettings = none → testConnection c outcome = false) := by
  refine ⟨?_, ?_, ?_, ?_⟩
  · intro htrue
    unfold testConnection at htrue
    cases hauth : c.authSettings with
    | none => rw [hauth] at htrue; simp at htrue
    | some _ =>
        rw [hauth] at htrue
        cases outcome with
        | exception m => simp at htrue
        | response r =>
            refine ⟨r, rfl, ?_⟩
            by_cases hok : responseOk r = true
            · exact hok
            · simp only [Bool.not_eq_true] at hok
              simp [hok] at htrue
  · intro r hout hfail
    subst hout
    unfold testConnection
    cases hauth : c.authSettings with
    | none => rfl
    | some _ => simp [hfail]
  · intro m hout
    subst hout
    unfold testConnection
    cases hauth : c.authSettings with
    | none => rfl
    | some _ => rfl
  · intro hauth
    unfold testConnection
    rw [hauth]

/-- Witness for C7 at the four scenario inputs of the spec: a network
exception, a 500, a 401, and a 200 all return plain booleans; the 200
returns `true`, the rest `false`. -/
theorem testConnection_total_witness :
    testConnection (initClient (mkClient {}) ⟨"https://dev.azure.com/acme", "tok"⟩)
      (.exception "Failed to fetch") = false ∧
    testConnection (initClient (mkClient {}) ⟨"https://dev.azure.com/acme", "tok"⟩)
      (.response ⟨500, "Internal Server Error", none⟩) = false ∧
    testConnection (initClient (mkClient {}) ⟨"https://dev.azure.com/acme", "tok"⟩)
      (.response ⟨401, "Unauthorized", none⟩) = false ∧
    ∃ r, (FetchOutcome.response ⟨200, "OK", some (.obj [("count", .num 1)])⟩) =
      .response r ∧ responseOk r = true :=
  ⟨(testConnection_total (initClient (mkClient {}) ⟨"https://dev.azure.com/acme", "tok"⟩)
      (.exception "Failed to fetch")).2.2.1 "Failed to fetch" rfl,
   (testConnection_total (initClient (mkClient {}) ⟨"https://dev.azure.com/acme", "tok"⟩)
      (.response ⟨500, "Internal Server Error", none⟩)).2.1 _ rfl rfl,
   (testConnection_total (initClient (mkClient {}) ⟨"https://dev.azure.com/acme", "tok"⟩)
      (.response ⟨401, "Unauthorized", none⟩)).2.1 _ rfl rfl,
   (testConnection_total (initClient (mkClient {}) ⟨"https://dev.azure.com/acme", "tok"⟩)
      (.response ⟨200, "OK", some (.obj [("count", .num 1)])⟩)).1 rfl⟩

/-- `request` on an uninitialized client throws the `ensureInitialized`
error before touching cache or network. -/
lemma request_uninit (c : Client) (path : String) (ropts : RequestOptions)
    (now : Nat) (f : Nat → FetchOutcome)
    (hinit : c.authSettings = none) :
    request c path ropts now f = ⟨.error (.js uninitializedMsg), c, 0⟩ := by
  unfold request
  rw [hinit]

/-- C8 counterexample: `getPullRequestListUrl` performs no initialization
check — on a client that was never initialized it returns a URL string
instead of signalling an "uninitialized" error, contradicting the claim
that every listed resource operation fails before the first successful
initialize. -/
theorem uninitialized_url_helper_counterexample :
    (mkClient {}).authSettings = none ∧
    getPullRequestListUrl (mkClient {})
        ⟨"proj", none, "https://dev.azure.com/acme", none⟩ =
      "https://dev.azure.com/acme/proj/_pulls?state=active" :=
  ⟨rfl, rfl⟩

/-- C8 as amended: before the first successful initialize, every resource
operation that touches auth state or the network (`getOrganizationName`,
`getPipelineDefinitions`, `getPipelineStatus`, `getPullRequests`,
`getRepositories`, `getProjects`, `queuePipelineRun`,
`getLatestPipelineRunUrl`) fails with the "uninitialized" error, which is
not an `ApiError`; `getPullRequestListUrl`, however, performs no such
check: it is a pure function of its options argument and returns a URL
regardless of client state. -/
theorem uninitialized_operations (c : Client) (hinit : c.authSettings = none)
    (project repository : String) (pipelineId : Int) (status : PullRequestStatus)
    (top skip : Nat) (branch : Option String) (now : Nat) (f : Nat → FetchOutcome)
    (opts : PrListUrlOptions) :
    (JsFailure.js uninitializedMsg).isApi = false ∧
    getOrganizationName c = .error (.js uninitializedMsg) ∧
    (getPipelineDefinitions c project now f).result = .error (.js uninitializedMsg) ∧
    (getPipelineStatus c project pipelineId now f).result =
      .error (.js uninitializedMsg) ∧
    (getPullRequests c project repository status now f).result =
      .error (.js uninitializedMsg) ∧
    (getRepositories c project now f).result = .error (.js uninitializedMsg) ∧
    (getProjects c top skip now f).result = .error (.js uninitializedMsg) ∧
    (queuePipelineRun c project pipelineId branch now f).result =
      .error (.js uninitializedMsg) ∧
    (getLatestPipelineRunUrl c project pipelineId now f).result =
      .error (.js uninitializedMsg) ∧
    (∀ c' : Client, getPullRequestListUrl c opts = getPullRequestListUrl c' opts) := by
  have hreq : ∀ (path : String) (ropts : RequestOptions),
      request c path ropts now f = ⟨.error (.js uninitializedMsg), c, 0⟩ :=
    fun path ropts => request_uninit c path ropts now f hinit
  refine ⟨rfl, ?_, ?_, ?_, ?_, ?_, ?_, ?_, ?_, fun c' => rfl⟩
  · unfold getOrganizationName
    rw [hinit]
  · simp [getPipelineDefinitions, hreq]
  · simp [getPipelineStatus, hreq]
  · simp [getPullRequests, hreq]
  · simp [getRepositories, hreq]
  · simp [getProjects, hreq]
  · simp [queuePipelineRun, hreq]
  · simp [getLatestPipelineRunUrl, getPipelineStatus, hreq]

/-- Witness for the amended C8 on a freshly constructed (never
initialized) client. -/
theorem uninitialized_operations_witness :
    (JsFailure.js uninitializedMsg).isApi = false ∧
    getOrganizationName (mkClient {}) = .error (.js uninitializedMsg) ∧
    (getPipelineDefinitions (mkClient {}) "proj" 0
        (fun _ => .response ⟨200, "OK", some (.arr [])⟩)).result =
      .error (.js uninitializedMsg) ∧
    (getPipelineStatus (mkClient {}) "proj" 42 0
        (fun _ => .response ⟨200, "OK", some (.arr [])⟩)).result =
      .error (.js uninitializedMsg) ∧
    (getPullRequests (mkClient {}) "proj" "repo" .active 0
        (fun _ => .response ⟨200, "OK", some (.obj [("value", .arr [])])⟩)).result =
      .error (.js uninitializedMsg) ∧
    (getRepositories (mkClient {}) "proj" 0
        (fun _ => .response ⟨200, "OK", some (.obj [("value", .arr [])])⟩)).result =
      .error (.js uninitializedMsg) ∧
    (getProjects (mkClient {}) 100 0 0
        (fun _ => .response ⟨200, "OK", some (.obj [("count", .num 0)])⟩)).result =
      .error (.js uninitializedMsg) ∧
    (queuePipelineRun (mkClient {}) "proj" 42 none 0
        (fun _ => .response ⟨200, "OK", some (.obj [])⟩)).result =
      .error (.js uninitializedMsg) ∧
    (getLatestPipelineRunUrl (mkClient {}) "proj" 42 0
        (fun _ => .response ⟨200, "OK", some (.arr [])⟩)).result =
      .error (.js uninitializedMsg) ∧
    (∀ c' : Client,
      getPullRequestListUrl (mkClient {}) ⟨"proj", none, "https://o", none⟩ =
        getPullRequestListUrl c' ⟨"proj", none, "https://o", none⟩) := by
  refine ⟨?_, ?_, ?_, ?_, ?_, ?_, ?_, ?_, ?_, ?_⟩
  · exact (uninitialized_operations (mkClient {}) rfl "proj" "repo" 42 .active 100 0
      none 0 (fun _ => .response ⟨200, "OK", some (.arr [])⟩)
      ⟨"proj", none, "https://o", none⟩).1
  · exact (uninitialized_operations (mkClient {}) rfl "proj" "repo" 42 .active 100 0
      none 0 (fun _ => .response ⟨200, "OK", some (.arr [])⟩)
      ⟨"proj", none, "https://o", none⟩).2.1
  · exact (uninitialized_operations (mkClient {}) rfl "proj" "repo" 42 .active 100 0
      none 0 (fun _ => .response ⟨200, "OK", some (.arr [])⟩)
      ⟨"proj", none, "https://o", none⟩).2.2.1
  · exact (uninitialized_operations (mkClient {}) rfl "proj" "repo" 42 .active 100 0
      none 0 (fun _ => .response ⟨200, "OK", some (.arr [])⟩)
      ⟨"proj", none, "https://o", none⟩).2.2.2.1
  · exact (uninitialized_operations (mkClient {}) rfl "proj" "repo" 42 .active 100 0
      none 0 (fun _ => .response ⟨200, "OK", some (.obj [("value", .arr [])])⟩)
      ⟨"proj", none, "https://o", none⟩).2.2.2.2.1
  · exact (uninitialized_operations (mkClient {}) rfl "proj" "repo" 42 .active 100 0
      none 0 (fun _ => .response ⟨200, "OK", some (.obj [("value", .arr [])])⟩)
      ⟨"proj", none, "https://o", none⟩).2.2.2.2.2.1
  · exact (uninitialized_operations (mkClient {}) rfl "proj" "repo" 42 .active 100 0
      none 0 (fun _ => .response ⟨200, "OK", some (.obj [("count", .num 0)])⟩)
      ⟨"proj", none, "https://o", none⟩).2.2.2.2.2.2.1
  · exact (uninitialized_operations (mkClient {}) rfl "proj" "repo" 42 .active 100 0
      none 0 (fun _ => .response ⟨200, "OK", some (.obj [])⟩)
      ⟨"proj", none, "https://o", none⟩).2.2.2.2.2.2.2.1
  · exact (uninitialized_operations (mkClient {}) rfl "proj" "repo" 42 .active 100 0
      none 0 (fun _ => .response ⟨200, "OK", some (.arr [])⟩)
      ⟨"proj", none, "https://o", none⟩).2.2.2.2.2.2.2.2.1
  · exact (uninitialized_operations (mkClient {}) rfl "proj" "repo" 42 .active 100 0
      none 0 (fun _ => .response ⟨200, "OK", some (.arr [])⟩)
      ⟨"proj", none, "https://o", none⟩).2.2.2.2.2.2.2.2.2

/-- `getPipelineStatus` makes exactly the network attempts of its
underlying `request`, whatever the outcome. -/
lemma getPipelineStatus_networkCalls (c : Client) (project : String) (pipelineId : Int)
    (now : Nat) (f : Nat → FetchOutcome) :
    (getPipelineStatus c project pipelineId now f).networkCalls =
      (request c
        (project ++ "/_apis/build/builds?definitions=" ++ toString pipelineId
          ++ "&$top=1")
        {} now f).networkCalls := by
  show (getPipelineStatus c project pipelineId now f).networkCalls = _
  simp only [getPipelineStatus]
  repeat' split
  all_goals rfl

/-- `getLatestPipelineRunUrl` makes exactly the network attempts of its
inner `getPipelineStatus` call. -/
lemma getLatestPipelineRunUrl_networkCalls (c : Client) (project : String)
    (pipelineId : Int) (now : Nat) (f : Nat → FetchOutcome) :
    (getLatestPipelineRunUrl c project pipelineId now f).networkCalls =
      (getPipelineStatus c project pipelineId now f).networkCalls := by
  simp only [getLatestPipelineRunUrl]
  repeat' split
  all_goals rfl

/-- C9 counterexample: `getLatestPipelineRunUrl` is not a pure
string-building helper — on an initialized client with an empty cache and
a network that answers the top-1 build query with one build, it makes one
network attempt (the claim requires zero) and returns the `url` carried by
the fetched build. -/
theorem latestRunUrl_network_counterexample :
    (getLatestPipelineRunUrl
        (initClient (mkClient {}) ⟨"https://dev.azure.com/acme", "tok"⟩) "proj" 42 0
        (fun _ => .response ⟨200, "OK",
          some (.arr [.obj [("url",
            .str "https://dev.azure.com/acme/proj/_build/results?buildId=100")]])⟩)).networkCalls
      = 1 := by
  rw [getLatestPipelineRunUrl_networkCalls, getPipelineStatus_networkCalls]
  have A := request_fresh_full
    (initClient (mkClient {}) ⟨"https://dev.azure.com/acme", "tok"⟩)
    ("proj" ++ "/_apis/build/builds?definitions=" ++ toString (42 : Int) ++ "&$top=1")
    {} 0
    (fun _ => .response ⟨200, "OK",
      some (.arr [.obj [("url",
        .str "https://dev.azure.com/acme/proj/_build/results?buildId=100")]])⟩)
    ⟨"https://dev.azure.com/acme", "tok"⟩ rfl rfl rfl
  rw [requestLoop_ok
    (fun _ => .response ⟨200, "OK",
      some (.arr [.obj [("url",
        .str "https://dev.azure.com/acme/proj/_build/results?buildId=100")]])⟩)
    _ 0 (.arr [.obj [("url",
      .str "https://dev.azure.com/acme/proj/_build/results?buildId=100")]]) rfl] at A
  rw [A]

/-- C9 as amended: `getPullRequestListUrl` is a pure string-building
helper — it reads no client state, issues no network request,
deterministically produces the canonical web URL, and falls back to the
project-wide URL when no repository name is supplied; by contrast,
`getLatestPipelineRunUrl` issues a network request (via
`getPipelineStatus`) and returns the `url` property of the fetched latest
build. -/
theorem url_helpers (c : Client) :
    (∀ (c' : Client) (o : PrListUrlOptions),
       getPullRequestListUrl c o = getPullRequestListUrl c' o)
  ∧ (∀ o : PrListUrlOptions, o.repositoryName = none →
       getPullRequestListUrl c o =
         o.organizationUrl ++ "/" ++ o.projectId ++ "/_pulls?state=active")
  ∧ (∀ (o : PrListUrlOptions) (rid rname : String),
       o.repositoryId = some rid → o.repositoryName = some rname →
       rid ≠ "" → rid ≠ "all" → rname ≠ "" →
       getPullRequestListUrl c o =
         o.organizationUrl ++ "/" ++ o.projectId ++ "/_git/" ++ rname
           ++ "/pullrequests?state=active")
  ∧ (∀ (auth : AuthSettings) (project : String) (pipelineId : Int) (now : Nat)
       (f : Nat → FetchOutcome) (b : JValue) (rest : List JValue),
       c.authSettings = some auth → c.cache = [] →
       attemptResult f 0 = .ok (.arr (b :: rest)) →
       (getLatestPipelineRunUrl c project pipelineId now f).networkCalls = 1 ∧
       (getLatestPipelineRunUrl c project pipelineId now f).result =
         .ok (jGet b "url")) := by
  refine ⟨fun c' o => rfl, ?_, ?_, ?_⟩
  · intro o hname
    unfold getPullRequestListUrl
    rcases o with ⟨p, rid, org, rname⟩
    simp at hname
    subst hname
    cases rid <;> rfl
  · intro o rid rname hrid hrname h1 h2 h3
    unfold getPullRequestListUrl
    rcases o with ⟨p, rid0, org, rname0⟩
    simp at hrid hrname
    subst hrid
    subst hrname
    have hre : rid.isEmpty = false := by
      cases hx : rid.isEmpty
      · rfl
      · exact absurd ((String.isEmpty_iff rid).mp hx) h1
    have hrn : rname.isEmpty = false := by
      cases hx : rname.isEmpty
      · rfl
      · exact absurd ((String.isEmpty_iff rname).mp hx) h3
    have : (!rid.isEmpty && rid != "all" && !rname.isEmpty) = true := by
      simp [h2, hre, hrn]
    simp only [this, if_true, Option.getD_some]
  · intro auth project pipelineId now f b rest hinit hcache hok
    have A := request_fresh_full c
      (project ++ "/_apis/build/builds?definitions=" ++ toString pipelineId
        ++ "&$top=1")
      {} now f auth hinit rfl (by rw [hcache]; rfl)
    rw [requestLoop_ok f _ 0 (.arr (b :: rest)) hok] at A
    constructor
    · rw [getLatestPipelineRunUrl_networkCalls, getPipelineStatus_networkCalls, A]
    · simp [getLatestPipelineRunUrl, getPipelineStatus, A, truthy]

/-- Witness for the amended C9: the pure helper output on concrete
options, and a concrete latest-run fetch. -/
theorem url_helpers_witness :
    getPullRequestListUrl (mkClient {})
        ⟨"proj", some "r1id", "https://dev.azure.com/acme", none⟩ =
      "https://dev.azure.com/acme" ++ "/" ++ "proj" ++ "/_pulls?state=active" ∧
    (getLatestPipelineRunUrl
        (initClient (mkClient {}) ⟨"https://dev.azure.com/acme", "tok"⟩) "proj" 7 5
        (fun _ => .response ⟨200, "OK",
          some (.arr [.obj [("url", .str "https://x/run/1")]])⟩)).networkCalls = 1 ∧
    (getLatestPipelineRunUrl
        (initClient (mkClient {}) ⟨"https://dev.azure.com/acme", "tok"⟩) "proj" 7 5
        (fun _ => .response ⟨200, "OK",
          some (.arr [.obj [("url", .str "https://x/run/1")]])⟩)).result =
      .ok (jGet (.obj [("url", .str "https://x/run/1")]) "url") := by
  have h := url_helpers (initClient (mkClient {}) ⟨"https://dev.azure.com/acme", "tok"⟩)
  have hlatest := h.2.2.2 ⟨"https://dev.azure.com/acme", "tok"⟩ "proj" 7 5
    (fun _ => .response ⟨200, "OK",
      some (.arr [.obj [("url", .str "https://x/run/1")]])⟩)
    (.obj [("url", .str "https://x/run/1")]) [] rfl rfl rfl
  refine ⟨?_, hlatest.1, hlatest.2⟩
  exact (url_helpers (mkClient {})).2.1
    ⟨"proj", some "r1id", "https://dev.azure.com/acme", none⟩ rfl

/-- C10: when a cache-eligible GET stores a falsy JSON value (null, false,
0, or ""), the entry is physically present and live, yet the lookup is
treated as a miss — a repeated identical call within the TTL window makes
a fresh network attempt, because `request` tests the cached value for
truthiness (`if (cachedData)`) rather than presence. -/
theorem cache_falsy_treated_as_miss (c : Client) (auth : AuthSettings)
    (hinit : c.authSettings = some auth)
    (path : String) (ropts : RequestOptions)
    (helig : cacheEligible ropts = true)
    (hmiss : cacheGet c.cache (getCacheKey path ropts) = none)
    (t1 t2 : Nat) (f1 f2 : Nat → FetchOutcome) (v w : JValue)
    (hok1 : attemptResult f1 0 = .ok v)
    (hfalsy : truthy v = false)
    (hok2 : attemptResult f2 0 = .ok w)
    (hwindow : t2 ≤ t1 + c.cacheTtl) :
    cacheGet (request c path ropts t1 f1).client.cache (getCacheKey path ropts) =
      some ⟨v, t1 + c.cacheTtl⟩ ∧
    (request c path ropts t1 f1).networkCalls = 1 ∧
    (request (request c path ropts t1 f1).client path ropts t2 f2).networkCalls = 1 := by
  have h1 := request_fresh_full c path ropts t1 f1 auth hinit helig hmiss
  rw [requestLoop_ok f1 _ 0 v hok1] at h1
  have hr1client : (request c path ropts t1 f1).client =
      setInCache c (getCacheKey path ropts) v t1 := by rw [h1]
  have hfound : cacheGet (request c path ropts t1 f1).client.cache
      (getCacheKey path ropts) = some ⟨v, t1 + c.cacheTtl⟩ := by
    rw [hr1client, setInCache_cache, cacheGet_cacheSet_self]
  refine ⟨hfound, by rw [h1], ?_⟩
  have h2 := request_found_falsy (request c path ropts t1 f1).client path ropts t2 f2
    auth ⟨v, t1 + c.cacheTtl⟩
    (by rw [hr1client, setInCache_authSettings, hinit]) helig hfound
    (by simp; omega) hfalsy
  rw [requestLoop_ok f2 _ 0 w hok2] at h2
  rw [h2]

/-- Witness for C10: a null response body cached at time 0 forces a second
network call at time 1, despite the live cache entry. -/
theorem cache_falsy_treated_as_miss_witness :
    cacheGet
        (request (initClient (mkClient {}) ⟨"https://dev.azure.com/acme", "tok"⟩)
          "proj/_apis/x" {} 0
          (fun _ => .response ⟨200, "OK", some .null⟩)).client.cache
        (getCacheKey "proj/_apis/x" {}) = some ⟨.null, 0 + 300000⟩ ∧
    (request (initClient (mkClient {}) ⟨"https://dev.azure.com/acme", "tok"⟩)
        "proj/_apis/x" {} 0
        (fun _ => .response ⟨200, "OK", some .null⟩)).networkCalls = 1 ∧
    (request
        (request (initClient (mkClient {}) ⟨"https://dev.azure.com/acme", "tok"⟩)
          "proj/_apis/x" {} 0
          (fun _ => .response ⟨200, "OK", some .null⟩)).client
        "proj/_apis/x" {} 1
        (fun _ => .response ⟨200, "OK", some .null⟩)).networkCalls = 1 := by
  have h := cache_falsy_treated_as_miss
    (initClient (mkClient {}) ⟨"https://dev.azure.com/acme", "tok"⟩)
    ⟨"https://dev.azure.com/acme", "tok"⟩ rfl "proj/_apis/x" {} rfl rfl 0 1
    (fun _ => .response ⟨200, "OK", some .null⟩)
    (fun _ => .response ⟨200, "OK", some .null⟩)
    .null .null rfl rfl rfl (by decide)
  exact ⟨h.1, h.2.1, h.2.2⟩

end ADO
